import Mathlib

/-
Verification development for bookwyrm's user-export job orchestration
(src/bookwyrm/models/bookwyrm_export_job.py).

The module under src/ defines BookwyrmExportJob (the root/parent export job),
AddBookToUserExportJob (one child per book edition), AddFileToTar (the archive
assembly child job), and the celery tasks start_export_task, json_export,
export_saved_lists_task, export_follows_task, export_blocks_task,
export_reading_goals_task and trigger_books_jobs.

The abstract Job / ParentJob / ChildJob base classes live in
bookwyrm/models/job.py, which is NOT under src/.  Their operations
(set_status, stop_job, complete_job, the `complete` property, has_completed,
and the child-finished notification protocol) are therefore modelled from the
spec (spec.md sections 3, 4.1 and 4.3); each such definition carries a
doc comment starting with "Modelled from the spec:".

Timestamps (created_date / updated_date) and task ids on the job rows are not
modelled: no claim observes them.  Database persistence is modelled as the
single JobState value threaded through the functions; a save that is followed
by further writes in the same control flow is simply a later field update.
-/

/-- Modelled from the spec: section 3 -- a job status is one of pending,
active, complete, or stopped, where stopped carries a reason (such as
"failed"; bookwyrm/models/job.py is not under src/). -/
inductive Status where
  | pending : Status
  | active : Status
  | complete : Status
  | stopped : Option String → Status
deriving DecidableEq, Repr

/-- Modelled from the spec: section 3 -- "once status is complete or stopped"
the job is terminal.  This is the `complete` property guarding the early
returns in the source. -/
def Status.terminal : Status → Bool
  | .complete => true
  | .stopped _ => true
  | _ => false

/-- Modelled from the spec: section 4.1 -- set_status is a no-op once the job
is terminal (terminal transitions are idempotent and cannot be left). -/
def setStatus (cur : Status) (new : Status) : Status :=
  if cur.terminal then cur else new

/-- Modelled from the spec: section 4.1 -- mark_stopped(reason) is an
idempotent no-op if the job is already terminal. -/
def stopJob (cur : Status) (reason : Option String) : Status :=
  if cur.terminal then cur else .stopped reason

/-- Modelled from the spec: section 4.1 -- mark_complete is an idempotent
no-op if the job is already terminal. -/
def completeJob (cur : Status) : Status :=
  if cur.terminal then cur else .complete

/-- The Python call set_status("failed"), which stops the job with
reason "failed". -/
def setFailed (cur : Status) : Status :=
  stopJob cur (some "failed")

/-- The two child-job classes of the source: AddBookToUserExportJob is bound
to one book edition (modelled by its integer id), AddFileToTar is the archive
assembly job. -/
inductive ChildKind where
  | bookJob : Nat → ChildKind
  | tarJob : ChildKind
deriving DecidableEq, Repr

/-- One ChildJob row: its kind and its status. -/
structure Child where
  kind : ChildKind
  status : Status
deriving DecidableEq, Repr

/-- One reading goal entry as produced by export_reading_goals_task
(src lines 360-363): goal, year and privacy. -/
structure GoalEntry where
  goal : Nat
  year : Nat
  privacy : String
deriving DecidableEq, Repr

/-- The export_json document of BookwyrmExportJob.  Each top-level key that
the export tasks write is an Option field; none means the key is absent.
The user-identity payload written by user.to_activity(), and the contents of
the icon and settings keys, are not inspected by any claim and are modelled
as presence flags only.  The books key holds the list of edition ids
appended by AddBookToUserExportJob.start_job. -/
structure Doc where
  icon : Option Unit
  settings : Option Unit
  books : Option (List Nat)
  savedLists : Option (List String)
  follows : Option (List String)
  blocks : Option (List String)
  goals : Option (List GoalEntry)
deriving DecidableEq, Repr

/-- The document as first produced by user.to_activity() in start_export_task:
none of the export-specific keys exist yet. -/
def baseDoc : Doc :=
  ⟨none, none, none, none, none, none, none⟩

/-- The persistent state of one BookwyrmExportJob together with its child
jobs: status, the json_completed flag (src line 45), export_json (src line
44), the two backend-specific archive fields export_data_file and
export_data_s3 (src lines 41-42), and the list of ChildJob rows whose
parent_job is this job, in creation order. -/
structure JobState where
  status : Status
  jsonCompleted : Bool
  exportJson : Option Doc
  exportDataFile : Option String
  exportDataS3 : Option String
  children : List Child
deriving DecidableEq, Repr

/-- A fresh BookwyrmExportJob row. -/
def initState : JobState :=
  ⟨.pending, false, none, none, none, []⟩

/-- The environment of one export run: the user's data as returned by the
external collaborators (get_books_for_user, the social-graph queries), the
process-wide USE_S3 setting, the celery task id used in archive names, and
success/failure of each fallible external interaction.  gatherOk e is whether
AddBookToUserExportJob.start_job's data gathering succeeds for edition e;
tarCreateOk is whether AddFileToTar.objects.create (after the successful save
of json_completed) succeeds; tarArchiveOk is whether the archive writing
inside AddFileToTar.start_job succeeds. -/
structure Env where
  editions : List Nat
  gatherOk : Nat → Bool
  useS3 : Bool
  taskId : String
  startOk : Bool
  jsonOk : Bool
  savedListsOk : Bool
  followsOk : Bool
  blocksOk : Bool
  goalsOk : Bool
  tarCreateOk : Bool
  tarArchiveOk : Bool
  savedListsData : List String
  followsData : List String
  blocksData : List String
  goalsData : List GoalEntry

/-- Modelled from the spec: section 3 -- ParentJob.has_completed is "every
child job I currently know about is terminal" (bookwyrm/models/job.py is not
under src/).  On zero children it is vacuously true, which the spec's
section 4.2 relies on for the zero-book fan-out path. -/
def hasCompleted (st : JobState) : Bool :=
  st.children.all (fun c => c.status.terminal)

/-- Update the status of the child at position idx, keeping the terminal
guard of the Job model: a terminal child is left unchanged. -/
def setAt : List Child → Nat → Status → List Child
  | [], _, _ => []
  | c :: cs, 0, s => (if c.status.terminal then c else { c with status := s }) :: cs
  | c :: cs, n + 1, s => c :: setAt cs n s

/-- setChildStatus st idx s sets the status of child number idx. -/
def setChildStatus (st : JobState) (idx : Nat) (s : Status) : JobState :=
  { st with children := setAt st.children idx s }

/-- The archive location written by AddFileToTar.start_job in the remote
configuration: f"exports/{export_task_id}.tar.gz" (src line 242). -/
def s3ArchivePath (taskId : String) : String :=
  "exports/" ++ taskId ++ ".tar.gz"

/-- The archive location written by AddFileToTar.start_job in the local
configuration: f"{export_task_id}.tar.gz" (src line 275). -/
def localArchiveName (taskId : String) : String :=
  taskId ++ ".tar.gz"

/-- The successful effect of AddFileToTar.start_job on the parent export
job's archive fields: exactly one of export_data_s3 (src line 268) or
export_data_file (src line 275) is assigned, selected by settings.USE_S3
(src line 237). -/
def writeArchive (env : Env) (st : JobState) : JobState :=
  if env.useS3 then { st with exportDataS3 := some (s3ArchivePath env.taskId) }
  else { st with exportDataFile := some (localArchiveName env.taskId) }

mutual

/-- BookwyrmExportJob.notify_child_job_complete, src lines 71-97.  Returns
the updated state together with a flag saying whether the call raised an
exception out of the method.  The fuel argument bounds the recursion through
AddFileToTar.start_job (whose complete_job notifies this parent again); the
static call depth is two, entry points use fuel 3, and the pipeline below
never reaches fuel 0.

The early return on self.complete (src line 74) is the terminal check; the
updated_date refresh (src lines 77-78) is not modelled (no claim observes
timestamps).  When all known children are terminal and json_completed is
still false, the flag is set and saved (src lines 83-84) BEFORE the
AddFileToTar row is created and started (src lines 86-89).  If the creation
raises, the except block (src lines 91-94) dereferences the local tar_job,
which was never bound, so the handler itself raises NameError: the parent is
left unstopped and the method propagates the exception -- this is the raised
flag.  env.tarCreateOk models the creation succeeding.  A failing save of
json_completed raises the same NameError without persisting the flag; that
sub-case is not modelled separately because no claim distinguishes it. -/
def notifyGo : Nat → Env → JobState → JobState × Bool
  | 0, _, st => (st, false)
  | n + 1, env, st =>
    if st.status.terminal then (st, false)
    else if hasCompleted st then
      if st.jsonCompleted then
        ({ st with status := completeJob st.status }, false)
      else
        let st1 := { st with jsonCompleted := true }
        if env.tarCreateOk then
          let st2 := { st1 with children := st1.children ++ [⟨ChildKind.tarJob, Status.pending⟩] }
          (tarGo n env (st2.children.length - 1) st2, false)
        else
          (st1, true)
    else (st, false)

/-- AddFileToTar.start_job, src lines 217-295, acting on the parent export
job state; idx is the position of the AddFileToTar child row itself.  On
success the archive is produced and its location stored (src lines 237-288,
abstracted by writeArchive; the archive contents are modelled separately by
localStreamArchive / remoteComposeArchive), then self.complete_job() runs
(src line 290), which notifies the parent -- modelled from the spec:
section 4.3, a finishing child invokes notify_child_job_complete once.  On
any failure the except block (src lines 292-295) stops this job and then the
parent with reason "failed"; per the spec's section 4.4 this failure path
stops the parent directly and is not a completion notification. -/
def tarGo : Nat → Env → Nat → JobState → JobState
  | 0, _, _, st => st
  | n + 1, env, idx, st =>
    if env.tarArchiveOk then
      let st1 := writeArchive env st
      let st2 := setChildStatus st1 idx Status.complete
      (notifyGo n env st2).1
    else
      let st1 := setChildStatus st idx (Status.stopped (some "failed"))
      { st1 with status := stopJob st1.status (some "failed") }

end

/-- notify_child_job_complete as invoked by the module (fuel 3 is enough for
the depth-2 recursion through AddFileToTar). -/
def notifyChildJobComplete (env : Env) (st : JobState) : JobState × Bool :=
  notifyGo 3 env st

/-- AddFileToTar.start_job as invoked by the module. -/
def addFileToTarStart (env : Env) (idx : Nat) (st : JobState) : JobState :=
  tarGo 3 env idx st

/-- The failure path of AddBookToUserExportJob.start_job (src lines
203-207): the except block sets this child's status to "failed".  Modelled
from the spec: section 4.3 -- notify_child_job_complete is invoked "once per
finishing child", and per section 7 a failed child still counts as terminal
so that "the export proceeds to archive assembly"; hence the terminal
transition of the child notifies the parent.  If that notification itself
raises (the NameError of the tar-creation handler), the exception propagates
out of start_job; the Bool records it. -/
def bookFailPath (env : Env) (idx : Nat) (st : JobState) : JobState × Bool :=
  let st1 := setChildStatus st idx (Status.stopped (some "failed"))
  notifyChildJobComplete env st1

/-- AddBookToUserExportJob.start_job, src lines 112-207, for the child at
position idx bound to edition e.  The gathered book payload (work, edition,
authors, shelves, lists, statuses, readthroughs) is abstracted to the edition
id appended to export_json["books"] (src line 199); env.gatherOk e says
whether the gathering succeeds.  Appending requires export_json to exist and
to have a books key, otherwise the append raises and the except path runs.
On success self.complete_job() (src line 201) marks the child complete and
notifies the parent (modelled from the spec: section 4.3); an exception
escaping that notification is caught by the same except block (src line 203),
whose set_status("failed") on the already-terminal child is a no-op, so
start_job returns normally in that case. -/
def addBookStart (env : Env) (idx : Nat) (e : Nat) (st : JobState) : JobState × Bool :=
  match st.exportJson with
  | some d =>
    match d.books, env.gatherOk e with
    | some bs, true =>
      let st1 := { st with exportJson := some { d with books := some (bs ++ [e]) } }
      let st2 := setChildStatus st1 idx Status.complete
      ((notifyChildJobComplete env st2).1, false)
    | _, _ => bookFailPath env idx st
  | none => bookFailPath env idx st

/-- One iteration of the fan-out loop of trigger_books_jobs (src lines
426-431): create one AddBookToUserExportJob row for edition e and run its
start_job synchronously.  A raise out of start_job is caught by the inner
except (src lines 432-438), whose edition_job.set_status("failed") is a no-op
on the already-terminal child, so the loop continues either way. -/
def processOneEdition (env : Env) (e : Nat) (st : JobState) : JobState :=
  let idx := st.children.length
  let st1 := { st with children := st.children ++ [⟨ChildKind.bookJob e, Status.pending⟩] }
  (addBookStart env idx e st1).1

/-- The fan-out loop of trigger_books_jobs over the editions list. -/
def processEditions (env : Env) : List Nat → JobState → JobState
  | [], st => st
  | e :: rest, st => processEditions env rest (processOneEdition env e st)

/-- trigger_books_jobs, src lines 414-442.  With zero editions the parent's
notify_child_job_complete is invoked directly (src lines 422-424); a raise
out of it is caught by the outer except (src lines 440-442) which does
job.set_status("failed").  Otherwise one child per edition is created and
started.  Note there is no check of the root job's status at the top of this
task. -/
def triggerBooksJobs (env : Env) (st : JobState) : JobState :=
  if env.editions.length = 0 then
    match notifyChildJobComplete env st with
    | (st1, false) => st1
    | (st1, true) => { st1 with status := setFailed st1.status }
  else
    processEditions env env.editions st

/-- export_saved_lists_task, src lines 321-328: writes the saved_lists key
of export_json.  The task has no try/except: if the query or the save raises
(env.savedListsOk false), the celery task dies with the job row untouched;
the same happens if export_json is null.  The job status is never touched by
this task. -/
def exportSavedListsTask (env : Env) (st : JobState) : JobState :=
  match st.exportJson, env.savedListsOk with
  | some d, true => { st with exportJson := some { d with savedLists := some env.savedListsData } }
  | _, _ => st

/-- export_follows_task, src lines 331-339: writes the follows key; no
try/except, job status never touched. -/
def exportFollowsTask (env : Env) (st : JobState) : JobState :=
  match st.exportJson, env.followsOk with
  | some d, true => { st with exportJson := some { d with follows := some env.followsData } }
  | _, _ => st

/-- export_blocks_task, src lines 342-350: writes the blocks key; no
try/except, job status never touched. -/
def exportBlocksTask (env : Env) (st : JobState) : JobState :=
  match st.exportJson, env.blocksOk with
  | some d, true => { st with exportJson := some { d with blocks := some env.blocksData } }
  | _, _ => st

/-- export_reading_goals_task, src lines 353-364: writes the goals key from
the user's AnnualGoal rows; no try/except, job status never touched.  This
task is defined by the module but json_export never dispatches it (src lines
399-403 dispatch only saved lists, follows, blocks and the book fan-out). -/
def exportReadingGoalsTask (env : Env) (st : JobState) : JobState :=
  match st.exportJson, env.goalsOk with
  | some d, true => { st with exportJson := some { d with goals := some env.goalsData } }
  | _, _ => st

/-- The document preparation of json_export (src lines 376-394): ensure the
icon key exists (rewriting its url to a relative path, not modelled beyond
presence), write the settings key, and seed books with the empty list. -/
def prepDoc (d : Doc) : Doc :=
  { d with icon := some (), settings := some (), books := some ([] : List Nat) }

/-- json_export, src lines 367-411.  Sets the job active (src line 373; the
call is inside the try, so a later failure still leaves the failed status
behind), prepares the document, saves it, and dispatches the subtasks.  The
returned Bool says whether the subtasks were dispatched: on any exception the
except block does job.set_status("failed") and nothing is dispatched.  A null
export_json makes the icon access raise, hence the failure path.  There is no
early return on an already-terminal job (set_status("active") on a terminal
job is a no-op, but the document writes still happen; no claim exercises this
task on a terminal job, while C8 exercises trigger_books_jobs). -/
def jsonExportTask (env : Env) (st : JobState) : JobState × Bool :=
  let st1 := { st with status := setStatus st.status Status.active }
  match st1.exportJson, env.jsonOk with
  | some d, true => ({ st1 with exportJson := some (prepDoc d) }, true)
  | _, _ => ({ st1 with status := setFailed st1.status }, false)

/-- start_export_task, src lines 298-318.  Returns early, leaving the state
completely unchanged, if the job is already terminal (src lines 304-306: the
check of job.complete against a stop from the UI).  Otherwise the try writes
export_json = user.to_activity() and dispatches json_export; on an exception
(env.startOk false) the except does job.set_status("failed") and dispatches
nothing.  The returned Bool says whether json_export was dispatched. -/
def startExportTask (env : Env) (st : JobState) : JobState × Bool :=
  if st.status.terminal then (st, false)
  else if env.startOk then ({ st with exportJson := some baseDoc }, true)
  else ({ st with status := setFailed st.status }, false)

/-- The whole export pipeline for one job, in dispatch order: start, then
json_export, then the three dispatched social-graph tasks, then the book
fan-out.  The celery tasks are asynchronous in the source; they are run here
in the order json_export dispatches them (src lines 400-403).  The social
tasks write disjoint document keys and never touch status, children, the
json_completed flag or the archive fields, so their position relative to the
fan-out does not affect any claim proved below.  export_reading_goals_task
does not appear because json_export never dispatches it. -/
def runExport (env : Env) : JobState :=
  match startExportTask env initState with
  | (st, false) => st
  | (st, true) =>
    match jsonExportTask env st with
    | (st1, false) => st1
    | (st1, true) =>
      let st2 := exportSavedListsTask env st1
      let st3 := exportFollowsTask env st2
      let st4 := exportBlocksTask env st3
      triggerBooksJobs env st4

/-- The export_data property of BookwyrmExportJob (src lines 47-54): the
archive field of the configured backend. -/
def exportData (env : Env) (st : JobState) : Option String :=
  if env.useS3 then st.exportDataS3 else st.exportDataFile

/-- Extracts (edition, status) from a book child, none for the tar child. -/
def bookInfo (c : Child) : Option (Nat × Status) :=
  match c.kind with
  | .bookJob e => some (e, c.status)
  | .tarJob => none

/-- True for the AddFileToTar child rows. -/
def isTar (c : Child) : Bool :=
  match c.kind with
  | .tarJob => true
  | .bookJob _ => false

/-- The books key of a state's document. -/
def docBooks (st : JobState) : Option (List Nat) :=
  st.exportJson.bind (fun d => d.books)

/-- The saved_lists key of a state's document. -/
def docSavedLists (st : JobState) : Option (List String) :=
  st.exportJson.bind (fun d => d.savedLists)

/-- The follows key of a state's document. -/
def docFollows (st : JobState) : Option (List String) :=
  st.exportJson.bind (fun d => d.follows)

/-- The blocks key of a state's document. -/
def docBlocks (st : JobState) : Option (List String) :=
  st.exportJson.bind (fun d => d.blocks)

/-- The goals key of a state's document. -/
def docGoals (st : JobState) : Option (List GoalEntry) :=
  st.exportJson.bind (fun d => d.goals)

/-
Concurrency model of the exactly-once guard of notify_child_job_complete.

Celery delivers tasks at least once and sibling notifications can run on
different workers, so two invocations of notify_child_job_complete for the
same parent can interleave at the granularity of their database operations.
The guard in the source (src lines 81-88) is

    if not self.json_completed:
        self.json_completed = True
        self.save(update_fields=["json_completed"])
        tar_job = AddFileToTar.objects.create(...)
        tar_job.start_job()

a plain read-then-write on the row, not a compare-and-set.  The model below
runs two such invocations against the shared row, both under the precondition
of the race (parent not terminal, all children terminal, which stays true
throughout the guard section).  Each invocation is three database steps:
read the flag, save the flag as true if the read said false, create the
AddFileToTar row if the read said false.
-/

/-- Shared database state plus the two workers' positions for the race
analysis: the row's json_completed flag, the number of AddFileToTar rows
created so far, and per worker a program counter and the flag value its
instance read. -/
structure RaceState where
  flag : Bool
  tarCount : Nat
  pc1 : Nat
  saw1 : Bool
  pc2 : Nat
  saw2 : Bool
deriving DecidableEq, Repr

/-- One database step of worker 1 or worker 2 (selected by who) executing
the guard section of notify_child_job_complete.  pc 0 reads json_completed
from the row (src line 81); pc 1 saves json_completed = True if the read
said false (src lines 83-84), else the invocation takes the already-done
branch and stops creating anything; pc 2 creates the AddFileToTar row
(src lines 86-88); pc 3 is done. -/
def raceStep (who : Bool) (s : RaceState) : RaceState :=
  let pc := if who then s.pc1 else s.pc2
  let saw := if who then s.saw1 else s.saw2
  let upd := fun (pc' : Nat) (saw' : Bool) (s' : RaceState) =>
    if who then { s' with pc1 := pc', saw1 := saw' }
    else { s' with pc2 := pc', saw2 := saw' }
  match pc with
  | 0 => upd 1 s.flag s
  | 1 =>
    if saw then upd 3 saw s
    else upd 2 saw { s with flag := true }
  | 2 => upd 3 saw { s with tarCount := s.tarCount + 1 }
  | _ => s

/-- Run a schedule (a list of worker choices) from a race state. -/
def raceRun (sched : List Bool) (s : RaceState) : RaceState :=
  sched.foldl (fun s' w => raceStep w s') s

/-- The row before either invocation runs: json_completed false, no
AddFileToTar rows yet, both workers at the start of the guard. -/
def raceInit : RaceState :=
  ⟨false, 0, 0, false, 0, false⟩

/-- A schedule in which worker 1 finishes the whole guard before worker 2
starts: the sequential case. -/
def seqSchedule : List Bool :=
  [true, true, true, false, false, false]

/-- The racing schedule: both workers read json_completed before either
saves it. -/
def raceSchedule : List Bool :=
  [true, false, true, true, false, false]

/-
Archive content model for AddFileToTar.start_job (src lines 217-295).

The source builds the same archive through two strategies selected by
settings.USE_S3.  Both serialize export_json once into export_json_bytes
(src lines 230-232) and use it in their branch, and both walk the same
editions = get_books_for_user(user) (src line 235) adding the avatar (if
present) and each edition's cover (if present).

The entry-naming primitives live outside src/: the local branch writes
through BookwyrmTarFile (bookwyrm/utils/tar.py, a repository file not under
src/) and the remote branch through the third-party S3Tar compose operation
(an external collaborator, spec section 6).  Those are modelled from the
spec: section 4.4 requires both strategies to store the serialized document
"under a fixed name" and section 6 fixes binary attachments "under images/";
the transient remote document object exports/{task_id}/archive.json is
deleted after composing (src line 272) and lands in the archive under the
same fixed document name.
-/

/-- One entry of the produced tar.gz archive: its name and its payload
bytes. -/
structure TarEntry where
  name : String
  payload : List Nat
deriving DecidableEq, Repr

/-- The input both strategies consume: the serialized export_json bytes, the
celery task id, the user's avatar file name if any, each edition's cover
file name if any (in get_books_for_user order), and the stored bytes of each
image -- identical for both backends, which is the premise of the
equivalence claim. -/
structure ArchiveInput where
  exportJsonBytes : List Nat
  taskId : String
  avatarName : Option String
  coverNames : List (Option String)
  imageBytes : String → List Nat

/-- Modelled from the spec: section 4.4 -- both strategies store the
serialized document under the same fixed entry name
(BookwyrmTarFile.write_bytes is not under src/). -/
def docEntryName : String := "archive.json"

/-- The image entries common to both branches: f"images/{user.avatar.name}"
when the user has an avatar and f"images/{edition.cover.name}" for every
edition with a cover (src lines 259-264 and 281-287; the images/ directory
is literal in both branches of the source). -/
def imageEntries (a : ArchiveInput) : List TarEntry :=
  (match a.avatarName with
   | some n => [⟨"images/" ++ n, a.imageBytes n⟩]
   | none => []) ++
  a.coverNames.filterMap (fun c => c.map (fun n => ⟨"images/" ++ n, a.imageBytes n⟩))

/-- The local-stream strategy (USE_S3 false, src lines 274-288): open the
destination stream, write the document bytes, then add the avatar and the
covers under images/. -/
def localStreamArchive (a : ArchiveInput) : List TarEntry :=
  ⟨docEntryName, a.exportJsonBytes⟩ :: imageEntries a

/-- The transient remote object holding the document
(src line 250: f"exports/{export_task_id}/archive.json"). -/
def tmpJsonKey (taskId : String) : String :=
  "exports/" ++ taskId ++ "/archive.json"

/-- Modelled from the spec: section 4.4 -- the compose operation places each
referenced remote object in the archive; the transient document object lands
under the fixed document entry name (it is deleted afterwards, src line
272), every other object keeps its key as its entry name. -/
def remoteEntryName (taskId : String) (key : String) : String :=
  if key = tmpJsonKey taskId then docEntryName else key

/-- The remote-compose strategy (USE_S3 true, src lines 237-272): save the
document bytes to the transient object, reference it and the image objects,
and compose them into one archive. -/
def remoteComposeArchive (a : ArchiveInput) : List TarEntry :=
  let objects : List (String × List Nat) :=
    (tmpJsonKey a.taskId, a.exportJsonBytes) ::
      (imageEntries a).map (fun e => (e.name, e.payload))
  objects.map (fun kv => ⟨remoteEntryName a.taskId kv.1, kv.2⟩)

/-- The final status of the book child for edition e: complete when the
gathering succeeded, stopped("failed") otherwise. -/
def statusFor (env : Env) (e : Nat) : Status :=
  if env.gatherOk e then Status.complete else Status.stopped (some "failed")

/-- The document as it stands after json_export's preparation and the three
dispatched social-graph tasks have run (each writing its key only if its
query succeeded). -/
def socialDoc (env : Env) : Doc :=
  let d0 := prepDoc baseDoc
  let d1 := if env.savedListsOk then { d0 with savedLists := some env.savedListsData } else d0
  let d2 := if env.followsOk then { d1 with follows := some env.followsData } else d1
  if env.blocksOk then { d2 with blocks := some env.blocksData } else d2

/-- A concrete fully-successful environment used by the concrete theorems
and witnesses below: three book editions, local storage, every external
interaction succeeding. -/
def allOkEnv : Env :=
  { editions := [1, 2, 3]
    gatherOk := fun _ => true
    useS3 := false
    taskId := "t"
    startOk := true
    jsonOk := true
    savedListsOk := true
    followsOk := true
    blocksOk := true
    goalsOk := true
    tarCreateOk := true
    tarArchiveOk := true
    savedListsData := ["sl"]
    followsData := ["f"]
    blocksData := ["b"]
    goalsData := [⟨12, 2024, "public"⟩] }

/-- A parent export job mid-run: active, json phase not flagged done, one
completed book child, document prepared. -/
def midRunState : JobState :=
  ⟨Status.active, false, some (prepDoc baseDoc), none, none,
    [⟨ChildKind.bookJob 1, Status.complete⟩]⟩

/-- An export job whose root was stopped from the UI after json_export
prepared the document but before the book fan-out ran. -/
def cancelledState : JobState :=
  ⟨Status.stopped none, false, some (prepDoc baseDoc), none, none, []⟩

/-- C1: the claim says that however many times notify_child_job_complete is
invoked, concurrently or repeatedly, once all children are terminal, exactly
one AddFileToTar job is ever created, guarded by the json_completed flag
transition.  The guard is a read-then-write, not the compare-and-set the
spec requires, so two concurrent invocations that both read json_completed
before either saves it each create an AddFileToTar row: the racing schedule
creates two archive jobs, while the fully sequential schedule creates one. -/
theorem C1_concurrent_notify_creates_two_archive_jobs :
    (raceRun raceSchedule raceInit).tarCount = 2 ∧
    (raceRun raceSchedule raceInit).flag = true ∧
    (raceRun seqSchedule raceInit).tarCount = 1 := by
  decide

/-- C4: the claim says all four social-graph sub-tasks (saved lists,
follows, blocks, reading goals) are dispatched and a successful export's
document contains a goals key alongside saved_lists, follows and blocks.
In the source json_export dispatches only three of them plus the book
fan-out (src lines 399-403); export_reading_goals_task is never invoked, so
the completed export's document has saved_lists, follows and blocks but no
goals key -- even though running the task would write it. -/
theorem C4_reading_goals_never_dispatched :
    (runExport allOkEnv).status = Status.complete ∧
    docSavedLists (runExport allOkEnv) = some ["sl"] ∧
    docFollows (runExport allOkEnv) = some ["f"] ∧
    docBlocks (runExport allOkEnv) = some ["b"] ∧
    docGoals (runExport allOkEnv) = none ∧
    docGoals (exportReadingGoalsTask allOkEnv (runExport allOkEnv)) =
      some allOkEnv.goalsData := by
  decide

/-- C5: the claim says an exception raised while creating or starting the
ArchiveAssemblyJob marks that sub-job failed and stops the parent with
reason "failed", the handler completing without raising.  In the source the
except block (src lines 91-94) references the local tar_job, which is unbound
whenever AddFileToTar.objects.create (or the preceding save) raised, so the
handler itself raises NameError: no sub-job is marked failed (none exists),
the parent is left active (not stopped), json_completed stays true, and the
exception escapes the method. -/
theorem C5_create_failure_handler_raises :
    (notifyChildJobComplete { allOkEnv with tarCreateOk := false } midRunState).2 = true ∧
    (notifyChildJobComplete { allOkEnv with tarCreateOk := false } midRunState).1.status =
      Status.active ∧
    (notifyChildJobComplete { allOkEnv with tarCreateOk := false } midRunState).1.children =
      midRunState.children ∧
    (notifyChildJobComplete { allOkEnv with tarCreateOk := false } midRunState).1.jsonCompleted =
      true := by
  decide

/-- C6: the claim says a complete root job always has a non-null archive
location.  If the AddFileToTar creation raises once (a transient error), the
NameError of the broken handler escapes, json_completed stays true, and the
next child completion drives the parent to complete through the already-done
branch -- with both archive fields still null and no archive job ever run. -/
theorem C6_complete_with_null_archive :
    (runExport { allOkEnv with tarCreateOk := false }).status = Status.complete ∧
    (runExport { allOkEnv with tarCreateOk := false }).exportDataFile = none ∧
    (runExport { allOkEnv with tarCreateOk := false }).exportDataS3 = none := by
  decide

/-- C8 counterexample: the claim says every phase-start, including the
fan-out task and each child job's start_job, performs no work on an
already-terminal root.  trigger_books_jobs has no such check: run on a root
stopped from the UI it still creates a book child, runs it, appends the book
to the terminal job's document and marks the child complete. -/
theorem C8_fanout_mutates_cancelled_root :
    triggerBooksJobs { allOkEnv with editions := [5] } cancelledState ≠ cancelledState ∧
    (triggerBooksJobs { allOkEnv with editions := [5] } cancelledState).children =
      [⟨ChildKind.bookJob 5, Status.complete⟩] ∧
    docBooks (triggerBooksJobs { allOkEnv with editions := [5] } cancelledState) =
      some [5] := by
  decide

/-- C9 counterexample: the claim says a failure in any social-graph task is
fatal to the whole export.  export_saved_lists_task has no exception handler
and never touches the job row on failure, and nothing else observes it: with
the saved-lists query raising, the export still runs to complete and
publishes an archive, merely lacking the saved_lists key. -/
theorem C9_saved_lists_failure_not_fatal :
    (runExport { allOkEnv with savedListsOk := false }).status = Status.complete ∧
    exportData { allOkEnv with savedListsOk := false }
      (runExport { allOkEnv with savedListsOk := false }) = some "t.tar.gz" ∧
    docSavedLists (runExport { allOkEnv with savedListsOk := false }) = none := by
  decide

/-
Helper lemmas about the job model and the notification protocol.
-/

theorem completeJob_of_not_terminal {s : Status} (h : s.terminal = false) :
    completeJob s = Status.complete := by
  simp [completeJob, h]

theorem stopJob_of_not_terminal {s : Status} (r : Option String) (h : s.terminal = false) :
    stopJob s r = Status.stopped r := by
  simp [stopJob, h]

theorem setAt_append_singleton (l : List Child) (c : Child) (s : Status)
    (h : c.status.terminal = false) :
    setAt (l ++ [c]) l.length s = l ++ [{ c with status := s }] := by
  induction l with
  | nil => simp [setAt, h]
  | cons hd tl ih => simpa [setAt] using ih

theorem doc_books_eta {d : Doc} {bs : List Nat} (h : d.books = some bs) :
    ({ d with books := some bs } : Doc) = d := by
  cases d
  simp_all

theorem writeArchive_status (env : Env) (st : JobState) :
    (writeArchive env st).status = st.status := by
  cases h : env.useS3 <;> simp [writeArchive, h]

theorem writeArchive_jsonCompleted (env : Env) (st : JobState) :
    (writeArchive env st).jsonCompleted = st.jsonCompleted := by
  cases h : env.useS3 <;> simp [writeArchive, h]

theorem writeArchive_children (env : Env) (st : JobState) :
    (writeArchive env st).children = st.children := by
  cases h : env.useS3 <;> simp [writeArchive, h]

theorem writeArchive_exportJson (env : Env) (st : JobState) :
    (writeArchive env st).exportJson = st.exportJson := by
  cases h : env.useS3 <;> simp [writeArchive, h]

theorem exportData_writeArchive (env : Env) (st : JobState) :
    (exportData env (writeArchive env st)).isSome = true := by
  cases h : env.useS3 <;> simp [exportData, writeArchive, h]

theorem notify_on_terminal (env : Env) {s : JobState} (h : s.status.terminal = true) :
    notifyChildJobComplete env s = (s, false) := by
  simp [notifyChildJobComplete, notifyGo, h]

theorem notify_waiting (env : Env) {s : JobState} (h1 : s.status.terminal = false)
    (h2 : hasCompleted s = false) :
    notifyChildJobComplete env s = (s, false) := by
  simp [notifyChildJobComplete, notifyGo, h1, h2]

theorem notify_already_done (env : Env) {s : JobState} (h1 : s.status.terminal = false)
    (h2 : hasCompleted s = true) (h3 : s.jsonCompleted = true) :
    notifyChildJobComplete env s = ({ s with status := Status.complete }, false) := by
  simp [notifyChildJobComplete, notifyGo, h1, h2, h3, completeJob_of_not_terminal]

theorem notify_create_fail (env : Env) {s : JobState} (h1 : s.status.terminal = false)
    (h2 : hasCompleted s = true) (h3 : s.jsonCompleted = false)
    (h4 : env.tarCreateOk = false) :
    notifyChildJobComplete env s = ({ s with jsonCompleted := true }, true) := by
  simp [notifyChildJobComplete, notifyGo, h1, h2, h3, h4]

theorem terminal_pending : Status.pending.terminal = false := rfl

theorem terminal_active : Status.active.terminal = false := rfl

theorem terminal_complete : Status.complete.terminal = true := rfl

theorem terminal_stopped (r : Option String) : (Status.stopped r).terminal = true := rfl

theorem notify_fire_success (env : Env) {s : JobState} (h1 : s.status.terminal = false)
    (h2 : hasCompleted s = true) (h3 : s.jsonCompleted = false)
    (h4 : env.tarCreateOk = true) (h5 : env.tarArchiveOk = true) :
    notifyChildJobComplete env s =
      (writeArchive env { s with
        status := Status.complete
        jsonCompleted := true
        children := s.children ++ [⟨ChildKind.tarJob, Status.complete⟩] }, false) := by
  have h2x : s.children.all (fun c => c.status.terminal) = true := h2
  have hset := setAt_append_singleton s.children ⟨ChildKind.tarJob, Status.pending⟩
    Status.complete rfl
  have hcj := completeJob_of_not_terminal h1
  cases hs3 : env.useS3 with
  | false =>
    simp only [notifyChildJobComplete, notifyGo, tarGo, writeArchive, setChildStatus,
      hasCompleted, hs3, h1, h3, h4, h5, h2x, hcj, hset,
      List.all_append, List.all_cons, List.all_nil, List.length_append, List.length_cons,
      List.length_nil, Nat.add_sub_cancel, terminal_pending, terminal_complete,
      Bool.false_eq_true, Bool.and_true, Bool.true_and, if_true, if_false, h2,
      Bool.if_false_left]
  | true =>
    simp only [notifyChildJobComplete, notifyGo, tarGo, writeArchive, setChildStatus,
      hasCompleted, hs3, h1, h3, h4, h5, h2x, hcj, hset,
      List.all_append, List.all_cons, List.all_nil, List.length_append, List.length_cons,
      List.length_nil, Nat.add_sub_cancel, terminal_pending, terminal_complete,
      Bool.false_eq_true, Bool.and_true, Bool.true_and, if_true, if_false, h2,
      Bool.if_false_left]

theorem notify_fire_archive_fail (env : Env) {s : JobState} (h1 : s.status.terminal = false)
    (h2 : hasCompleted s = true) (h3 : s.jsonCompleted = false)
    (h4 : env.tarCreateOk = true) (h5 : env.tarArchiveOk = false) :
    notifyChildJobComplete env s =
      ({ s with
        status := Status.stopped (some "failed")
        jsonCompleted := true
        children := s.children ++ [⟨ChildKind.tarJob, Status.stopped (some "failed")⟩] },
        false) := by
  have hset := setAt_append_singleton s.children ⟨ChildKind.tarJob, Status.pending⟩
    (Status.stopped (some "failed")) rfl
  have hsj := stopJob_of_not_terminal (some "failed") h1
  simp only [notifyChildJobComplete, notifyGo, tarGo, setChildStatus,
    h1, h2, h3, h4, h5, hset, hsj,
    List.length_append, List.length_cons, List.length_nil, Nat.add_sub_cancel,
    Bool.false_eq_true, if_true, if_false]

theorem processOneEdition_steady (env : Env) (e : Nat) {st : JobState} {d : Doc}
    {bs : List Nat} (h1 : st.status = Status.complete) (h2 : st.exportJson = some d)
    (h3 : d.books = some bs) :
    processOneEdition env e st =
      { st with
        exportJson := some { d with books := some (bs ++ (if env.gatherOk e then [e] else [])) }
        children := st.children ++ [⟨ChildKind.bookJob e, statusFor env e⟩] } := by
  cases hok : env.gatherOk e with
  | true =>
    have hset := setAt_append_singleton st.children ⟨ChildKind.bookJob e, Status.pending⟩
      Status.complete rfl
    simp only [processOneEdition, addBookStart, bookFailPath, setChildStatus, statusFor,
      notifyChildJobComplete, notifyGo, h1, h2, h3, hok, hset, terminal_complete,
      if_true, reduceIte]
  | false =>
    have hset := setAt_append_singleton st.children ⟨ChildKind.bookJob e, Status.pending⟩
      (Status.stopped (some "failed")) rfl
    have heta := doc_books_eta h3
    simp only [processOneEdition, addBookStart, bookFailPath, setChildStatus, statusFor,
      notifyChildJobComplete, notifyGo, h1, h2, h3, hok, hset, terminal_complete,
      List.append_nil, heta, reduceIte]
    simp [heta]

theorem processEditions_steady (env : Env) (es : List Nat) :
    ∀ {s : JobState} {d : Doc} {b : List Nat},
      s.status = Status.complete → s.exportJson = some d → d.books = some b →
      processEditions env es s =
        { s with
          exportJson := some { d with books := some (b ++ es.filter env.gatherOk) }
          children := s.children ++ es.map (fun x => ⟨ChildKind.bookJob x, statusFor env x⟩) } := by
  induction es with
  | nil =>
    intro s d b h1 h2 h3
    have heta := doc_books_eta h3
    simp only [processEditions, List.filter_nil, List.map_nil, List.append_nil, heta, ← h2]
  | cons e rest ih =>
    intro s d b h1 h2 h3
    rw [processEditions, processOneEdition_steady env e h1 h2 h3]
    rw [ih (s := { s with
          exportJson := some { d with books := some (b ++ (if env.gatherOk e then [e] else [])) }
          children := s.children ++ [⟨ChildKind.bookJob e, statusFor env e⟩] })
        h1 rfl rfl]
    cases hok : env.gatherOk e <;>
      simp [List.filter_cons, hok, List.append_assoc]

theorem processOneEdition_first (env : Env) (e : Nat) {s : JobState} {d : Doc}
    {b : List Nat} (h1 : s.status.terminal = false) (h2 : s.children = [])
    (h3 : s.exportJson = some d) (h4 : d.books = some b) (h5 : s.jsonCompleted = false)
    (h6 : env.tarCreateOk = true) (h7 : env.tarArchiveOk = true) :
    processOneEdition env e s =
      writeArchive env { s with
        status := Status.complete
        jsonCompleted := true
        exportJson := some { d with books := some (b ++ (if env.gatherOk e then [e] else [])) }
        children := [⟨ChildKind.bookJob e, statusFor env e⟩,
          ⟨ChildKind.tarJob, Status.complete⟩] } := by
  cases hok : env.gatherOk e with
  | true =>
    simp only [processOneEdition, addBookStart, bookFailPath, setChildStatus, h2, h3, h4,
      hok, List.length_nil, List.nil_append, setAt, terminal_pending, Bool.false_eq_true,
      if_false, reduceIte]
    rw [notify_fire_success env
      (s := { s with
        exportJson := some { d with books := some (b ++ [e]) }
        children := [⟨ChildKind.bookJob e, Status.complete⟩] })
      h1 (by simp [hasCompleted, Status.terminal]) h5 h6 h7]
    cases hs3 : env.useS3 <;> simp [writeArchive, hs3, statusFor, hok]
  | false =>
    have heta := doc_books_eta h4
    simp only [processOneEdition, addBookStart, bookFailPath, setChildStatus, h2, h3, h4,
      hok, List.length_nil, List.nil_append, setAt, terminal_pending, Bool.false_eq_true,
      if_false, reduceIte]
    rw [notify_fire_success env
      (s := { s with
        exportJson := some d
        children := [⟨ChildKind.bookJob e, Status.stopped (some "failed")⟩] })
      h1 (by simp [hasCompleted, Status.terminal]) h5 h6 h7]
    cases hs3 : env.useS3 <;> simp [writeArchive, hs3, statusFor, hok, heta, h3]

theorem socialDoc_books (env : Env) : (socialDoc env).books = some [] := by
  cases hA : env.savedListsOk <;> cases hB : env.followsOk <;> cases hC : env.blocksOk <;>
    simp [socialDoc, prepDoc, baseDoc, hA, hB, hC]

theorem writeArchive_update (env : Env) (s : JobState) (j : Option Doc) (c : List Child) :
    ({ writeArchive env s with exportJson := j, children := c } : JobState) =
      writeArchive env { s with exportJson := j, children := c } := by
  cases h : env.useS3 <;> simp [writeArchive, h]

theorem runExport_dispatch (env : Env) (hstart : env.startOk = true)
    (hjson : env.jsonOk = true) :
    runExport env = triggerBooksJobs env
      ⟨Status.active, false, some (socialDoc env), none, none, []⟩ := by
  cases h1 : env.savedListsOk <;> cases h2 : env.followsOk <;> cases h3 : env.blocksOk <;>
    simp [runExport, startExportTask, jsonExportTask, initState, hstart, hjson,
      exportSavedListsTask, exportFollowsTask, exportBlocksTask, socialDoc, prepDoc,
      baseDoc, setStatus, Status.terminal, h1, h2, h3]

theorem runExport_zero (env : Env) (hed : env.editions = [])
    (hstart : env.startOk = true) (hjson : env.jsonOk = true)
    (h6 : env.tarCreateOk = true) (h7 : env.tarArchiveOk = true) :
    runExport env =
      writeArchive env
        { status := Status.complete
          jsonCompleted := true
          exportJson := some (socialDoc env)
          exportDataFile := none
          exportDataS3 := none
          children := [⟨ChildKind.tarJob, Status.complete⟩] } := by
  rw [runExport_dispatch env hstart hjson]
  simp only [triggerBooksJobs, hed, List.length_nil]
  rw [notify_fire_success env
    (s := ⟨Status.active, false, some (socialDoc env), none, none, []⟩)
    rfl (by simp [hasCompleted]) rfl h6 h7]
  simp

theorem runExport_books (env : Env) (e : Nat) (rest : List Nat)
    (hed : env.editions = e :: rest) (hstart : env.startOk = true) (hjson : env.jsonOk = true)
    (h6 : env.tarCreateOk = true) (h7 : env.tarArchiveOk = true) :
    runExport env =
      writeArchive env
        { status := Status.complete
          jsonCompleted := true
          exportJson := some { socialDoc env with
            books := some ((e :: rest).filter env.gatherOk) }
          exportDataFile := none
          exportDataS3 := none
          children := ⟨ChildKind.bookJob e, statusFor env e⟩ ::
            ⟨ChildKind.tarJob, Status.complete⟩ ::
            rest.map (fun x => ⟨ChildKind.bookJob x, statusFor env x⟩) } := by
  rw [runExport_dispatch env hstart hjson]
  simp only [triggerBooksJobs, hed, List.length_cons]
  rw [if_neg (by simp)]
  rw [processEditions]
  rw [processOneEdition_first env e
    (s := ⟨Status.active, false, some (socialDoc env), none, none, []⟩)
    rfl rfl rfl (socialDoc_books env) rfl h6 h7]
  simp only [List.nil_append]
  rw [processEditions_steady env rest
    (s := writeArchive env
      { status := Status.complete
        jsonCompleted := true
        exportJson := some { socialDoc env with
          books := some (if env.gatherOk e then [e] else []) }
        exportDataFile := none
        exportDataS3 := none
        children := [⟨ChildKind.bookJob e, statusFor env e⟩,
          ⟨ChildKind.tarJob, Status.complete⟩] })
    (by rw [writeArchive_status]) (by rw [writeArchive_exportJson]) rfl]
  cases hs3 : env.useS3 <;> cases hok : env.gatherOk e <;>
    simp [writeArchive, hs3, List.filter_cons, hok]

theorem length_filter_split (p : Nat → Bool) (l : List Nat) :
    (l.filter p).length + (l.filter (fun x => !(p x))).length = l.length := by
  induction l with
  | nil => rfl
  | cons a t ih => cases h : p a <;> simp [List.filter_cons, h] <;> omega

theorem filterMap_bookInfo_map (env : Env) (l : List Nat) :
    (l.map (fun x => (⟨ChildKind.bookJob x, statusFor env x⟩ : Child))).filterMap bookInfo =
      l.map (fun x => (x, statusFor env x)) := by
  induction l with
  | nil => rfl
  | cons a t ih => simp [List.filterMap_cons, bookInfo, ih]

/-- C7: with zero editions from get_books_for_user, trigger_books_jobs
invokes the parent's notify_child_job_complete directly instead of creating
any book child job (src lines 422-424), and the export still proceeds to
archive assembly and reaches complete: the final state is complete, the only
child ever created is the completed AddFileToTar job, and the configured
archive field is set. -/
theorem C7_zero_books_export_completes (env : Env)
    (hed : env.editions = []) (hstart : env.startOk = true) (hjson : env.jsonOk = true)
    (h6 : env.tarCreateOk = true) (h7 : env.tarArchiveOk = true) :
    (runExport env).status = Status.complete ∧
    (runExport env).children = [⟨ChildKind.tarJob, Status.complete⟩] ∧
    (exportData env (runExport env)).isSome = true := by
  rw [runExport_zero env hed hstart hjson h6 h7]
  refine ⟨?_, ?_, ?_⟩
  · rw [writeArchive_status]
  · rw [writeArchive_children]
  · exact exportData_writeArchive env _

/-- Witness for C7 at a concrete zero-book environment. -/
theorem C7_zero_books_export_completes_witness :
    (runExport { allOkEnv with editions := [] }).status = Status.complete ∧
    (runExport { allOkEnv with editions := [] }).children =
      [⟨ChildKind.tarJob, Status.complete⟩] ∧
    (exportData { allOkEnv with editions := [] }
      (runExport { allOkEnv with editions := [] })).isSome = true :=
  C7_zero_books_export_completes { allOkEnv with editions := [] } rfl rfl rfl rfl rfl

/-- C2: when exactly one book child's data gathering fails, that child ends
stopped("failed") and is never retried (exactly one child row per edition),
the parent is not failed by it, and the root job still reaches complete with
the books array holding the entries of the N-1 successful children. -/
theorem C2_single_book_failure_isolated (env : Env)
    (hstart : env.startOk = true) (hjson : env.jsonOk = true)
    (h6 : env.tarCreateOk = true) (h7 : env.tarArchiveOk = true)
    (hone : (env.editions.filter (fun x => !(env.gatherOk x))).length = 1) :
    (runExport env).status = Status.complete ∧
    docBooks (runExport env) = some (env.editions.filter env.gatherOk) ∧
    (env.editions.filter env.gatherOk).length = env.editions.length - 1 ∧
    (runExport env).children.filterMap bookInfo =
      env.editions.map (fun x => (x, statusFor env x)) := by
  have hsplit := length_filter_split env.gatherOk env.editions
  cases hed : env.editions with
  | nil =>
    rw [hed] at hone
    simp at hone
  | cons e rest =>
    rw [hed] at hsplit hone
    have hrun := runExport_books env e rest hed hstart hjson h6 h7
    rw [hrun]
    refine ⟨?_, ?_, ?_, ?_⟩
    · rw [writeArchive_status]
    · simp [docBooks, writeArchive_exportJson, hed]
    · omega
    · rw [writeArchive_children]
      simp [hed, List.filterMap_cons, bookInfo, filterMap_bookInfo_map env rest]

/-- Witness for C2: three editions of which exactly the second fails. -/
theorem C2_single_book_failure_isolated_witness :
    (runExport { allOkEnv with gatherOk := fun x => x != 2 }).status = Status.complete ∧
    docBooks (runExport { allOkEnv with gatherOk := fun x => x != 2 }) =
      some ([1, 2, 3].filter (fun x => x != 2)) ∧
    ([1, 2, 3].filter (fun x => x != 2) : List Nat).length = ([1, 2, 3] : List Nat).length - 1 ∧
    (runExport { allOkEnv with gatherOk := fun x => x != 2 }).children.filterMap bookInfo =
      [1, 2, 3].map (fun x => (x, statusFor { allOkEnv with gatherOk := fun x => x != 2 } x)) :=
  C2_single_book_failure_isolated { allOkEnv with gatherOk := fun x => x != 2 }
    rfl rfl rfl rfl (by decide)

/-- C8 amended: of the phase-starts named by the claim, only the root start
task checks for an already-terminal root and then leaves the state completely
unchanged (src lines 304-306).  The fan-out task and the book child's
start_job have no such check and do mutate state on a terminal root (see the
counterexample); only status transitions are blocked there, by the terminal
guards of the job model. -/
theorem C8_start_task_skips_terminal_root (env : Env) (s : JobState)
    (h : s.status.terminal = true) :
    startExportTask env s = (s, false) := by
  simp [startExportTask, h]

/-- Witness for the amended C8 at a cancelled root job. -/
theorem C8_start_task_skips_terminal_root_witness :
    startExportTask allOkEnv cancelledState = (cancelledState, false) :=
  C8_start_task_skips_terminal_root allOkEnv cancelledState rfl

/-- C9 amended: a failure in the start phase is fatal -- the root job is
stopped with reason "failed", nothing is dispatched, no child is created and
no archive is published.  A failure in a social-graph task, however, never
touches the root job's status (those tasks have no exception handler and
mutate only their document key), so it is not fatal (see the
counterexample). -/
theorem C9_start_failure_fatal_social_failure_not (env : Env) (s : JobState)
    (h : env.startOk = false) :
    (runExport env).status = Status.stopped (some "failed") ∧
    (runExport env).exportDataFile = none ∧
    (runExport env).exportDataS3 = none ∧
    (runExport env).children = [] ∧
    (exportSavedListsTask env s).status = s.status ∧
    (exportFollowsTask env s).status = s.status ∧
    (exportBlocksTask env s).status = s.status := by
  refine ⟨?_, ?_, ?_, ?_, ?_, ?_, ?_⟩
  · simp [runExport, startExportTask, initState, h, setFailed, stopJob, Status.terminal]
  · simp [runExport, startExportTask, initState, h, setFailed, stopJob, Status.terminal]
  · simp [runExport, startExportTask, initState, h, setFailed, stopJob, Status.terminal]
  · simp [runExport, startExportTask, initState, h, setFailed, stopJob, Status.terminal]
  · cases hx : s.exportJson <;> cases hok : env.savedListsOk <;>
      simp [exportSavedListsTask, hx, hok]
  · cases hx : s.exportJson <;> cases hok : env.followsOk <;>
      simp [exportFollowsTask, hx, hok]
  · cases hx : s.exportJson <;> cases hok : env.blocksOk <;>
      simp [exportBlocksTask, hx, hok]

/-- Witness for the amended C9 at a concrete failing-start environment. -/
theorem C9_start_failure_fatal_social_failure_not_witness :
    (runExport { allOkEnv with startOk := false }).status = Status.stopped (some "failed") ∧
    (runExport { allOkEnv with startOk := false }).exportDataFile = none ∧
    (runExport { allOkEnv with startOk := false }).exportDataS3 = none ∧
    (runExport { allOkEnv with startOk := false }).children = [] ∧
    (exportSavedListsTask { allOkEnv with startOk := false } midRunState).status =
      midRunState.status ∧
    (exportFollowsTask { allOkEnv with startOk := false } midRunState).status =
      midRunState.status ∧
    (exportBlocksTask { allOkEnv with startOk := false } midRunState).status =
      midRunState.status :=
  C9_start_failure_fatal_social_failure_not { allOkEnv with startOk := false } midRunState rfl

theorem notifyGo_flag_props (n : Nat) (env : Env) {s : JobState} (h : s.jsonCompleted = true) :
    (notifyGo (n + 1) env s).1.jsonCompleted = true ∧
    (notifyGo (n + 1) env s).1.children = s.children ∧
    (notifyGo (n + 1) env s).2 = false := by
  by_cases h1 : s.status.terminal = true
  · simp [notifyGo, h1, h]
  · have h1x : s.status.terminal = false := by simpa using h1
    by_cases h2 : hasCompleted s = true
    · simp [notifyGo, h1x, h2, h]
    · have h2x : hasCompleted s = false := by simpa using h2
      simp [notifyGo, h1x, h2x, h]

theorem setChildStatus_flag (s : JobState) (idx : Nat) (x : Status) :
    (setChildStatus s idx x).jsonCompleted = s.jsonCompleted := rfl

theorem tarStart_flag (env : Env) (idx : Nat) {s : JobState} (h : s.jsonCompleted = true) :
    (addFileToTarStart env idx s).jsonCompleted = true := by
  cases ha : env.tarArchiveOk with
  | true =>
    have hp := notifyGo_flag_props 1 env
      (s := setChildStatus (writeArchive env s) idx Status.complete)
      (by simp [setChildStatus_flag, writeArchive_jsonCompleted, h])
    simp only [addFileToTarStart, tarGo, ha, if_true, reduceIte]
    exact hp.1
  | false =>
    simp [addFileToTarStart, tarGo, ha, setChildStatus, h]

theorem notifyCJC_flag_props (env : Env) {s : JobState} (h : s.jsonCompleted = true) :
    (notifyChildJobComplete env s).1.jsonCompleted = true ∧
    (notifyChildJobComplete env s).1.children = s.children ∧
    (notifyChildJobComplete env s).2 = false :=
  notifyGo_flag_props 2 env h

theorem addBookStart_flag (env : Env) (idx e : Nat) {s : JobState}
    (h : s.jsonCompleted = true) :
    (addBookStart env idx e s).1.jsonCompleted = true := by
  have hfail := notifyGo_flag_props 2 env
    (s := setChildStatus s idx (Status.stopped (some "failed")))
    (by simp [setChildStatus_flag, h])
  cases hx : s.exportJson with
  | none =>
    simp only [addBookStart, bookFailPath, notifyChildJobComplete, hx]
    exact hfail.1
  | some d =>
    cases hb : d.books with
    | none =>
      simp only [addBookStart, bookFailPath, notifyChildJobComplete, hx, hb]
      exact hfail.1
    | some bs =>
      cases hok : env.gatherOk e with
      | false =>
        simp only [addBookStart, bookFailPath, notifyChildJobComplete, hx, hb, hok]
        exact hfail.1
      | true =>
        have hsucc := notifyGo_flag_props 2 env
          (s := setChildStatus
            { s with exportJson := some { d with books := some (bs ++ [e]) } } idx
            Status.complete)
          (by simp [setChildStatus_flag, h])
        simp only [addBookStart, notifyChildJobComplete, hx, hb, hok]
        exact hsucc.1

theorem processOneEdition_flag (env : Env) (e : Nat) {s : JobState}
    (h : s.jsonCompleted = true) :
    (processOneEdition env e s).jsonCompleted = true := by
  simp only [processOneEdition]
  exact addBookStart_flag env s.children.length e
    (s := { s with children := s.children ++ [⟨ChildKind.bookJob e, Status.pending⟩] }) h

theorem processEditions_flag (env : Env) (l : List Nat) :
    ∀ {s : JobState}, s.jsonCompleted = true →
      (processEditions env l s).jsonCompleted = true := by
  induction l with
  | nil => intro s h; exact h
  | cons e rest ih =>
    intro s h
    rw [processEditions]
    exact ih (processOneEdition_flag env e h)

theorem triggerBooksJobs_flag (env : Env) {s : JobState} (h : s.jsonCompleted = true) :
    (triggerBooksJobs env s).jsonCompleted = true := by
  by_cases hz : env.editions.length = 0
  · obtain ⟨f1, f2, f3⟩ := notifyCJC_flag_props env h
    rcases hn : notifyChildJobComplete env s with ⟨st1, b⟩
    rw [hn] at f1 f3
    cases b with
    | false => simp [triggerBooksJobs, hz, hn]; exact f1
    | true => simp at f3
  · simp only [triggerBooksJobs, hz, if_false, reduceIte]
    exact processEditions_flag env env.editions h

theorem flag_le {a b : Bool} (h : a = true → b = true) : a ≤ b := by
  cases a
  · exact Bool.false_le b
  · rw [h rfl]

theorem jsonExportTask_flag (env : Env) (s : JobState) :
    (jsonExportTask env s).1.jsonCompleted = s.jsonCompleted := by
  cases hx : s.exportJson <;> cases hok : env.jsonOk <;>
    simp [jsonExportTask, hx, hok]

theorem startExportTask_flag (env : Env) (s : JobState) :
    (startExportTask env s).1.jsonCompleted = s.jsonCompleted := by
  by_cases h1 : s.status.terminal = true <;> cases hok : env.startOk <;>
    simp [startExportTask, h1, hok]

theorem socialTasks_flag (env : Env) (s : JobState) :
    (exportSavedListsTask env s).jsonCompleted = s.jsonCompleted ∧
    (exportFollowsTask env s).jsonCompleted = s.jsonCompleted ∧
    (exportBlocksTask env s).jsonCompleted = s.jsonCompleted ∧
    (exportReadingGoalsTask env s).jsonCompleted = s.jsonCompleted := by
  refine ⟨?_, ?_, ?_, ?_⟩
  · cases hx : s.exportJson <;> cases hok : env.savedListsOk <;>
      simp [exportSavedListsTask, hx, hok]
  · cases hx : s.exportJson <;> cases hok : env.followsOk <;>
      simp [exportFollowsTask, hx, hok]
  · cases hx : s.exportJson <;> cases hok : env.blocksOk <;>
      simp [exportBlocksTask, hx, hok]
  · cases hx : s.exportJson <;> cases hok : env.goalsOk <;>
      simp [exportReadingGoalsTask, hx, hok]

/-- C10: the json_completed flag is monotone -- no operation of the module
ever resets it from true to false -- and it is persisted before the
AddFileToTar row is created, so a notification that created (or failed to
create) the archive job leaves the flag true, and every notification that
finds the flag already true takes the already-done branch: it creates no
AddFileToTar row, changes no child row, and raises nothing. -/
theorem C10_json_completed_flag_monotone_exactly_once (env : Env) (s : JobState) (idx e : Nat) :
    s.jsonCompleted ≤ (notifyChildJobComplete env s).1.jsonCompleted ∧
    s.jsonCompleted ≤ (addFileToTarStart env idx s).jsonCompleted ∧
    s.jsonCompleted ≤ (addBookStart env idx e s).1.jsonCompleted ∧
    s.jsonCompleted ≤ (processOneEdition env e s).jsonCompleted ∧
    s.jsonCompleted ≤ (triggerBooksJobs env s).jsonCompleted ∧
    s.jsonCompleted ≤ (jsonExportTask env s).1.jsonCompleted ∧
    s.jsonCompleted ≤ (startExportTask env s).1.jsonCompleted ∧
    s.jsonCompleted ≤ (exportSavedListsTask env s).jsonCompleted ∧
    s.jsonCompleted ≤ (exportFollowsTask env s).jsonCompleted ∧
    s.jsonCompleted ≤ (exportBlocksTask env s).jsonCompleted ∧
    s.jsonCompleted ≤ (exportReadingGoalsTask env s).jsonCompleted ∧
    ((notifyChildJobComplete env s).1.children.filter isTar = s.children.filter isTar ∨
      (notifyChildJobComplete env s).1.jsonCompleted = true) ∧
    (s.jsonCompleted = false ∨
      ((notifyChildJobComplete env s).1.children = s.children ∧
        (notifyChildJobComplete env s).2 = false)) := by
  obtain ⟨hs1, hs2, hs3, hs4⟩ := socialTasks_flag env s
  refine ⟨flag_le (fun hf => (notifyCJC_flag_props env hf).1),
    flag_le (fun hf => tarStart_flag env idx hf),
    flag_le (fun hf => addBookStart_flag env idx e hf),
    flag_le (fun hf => processOneEdition_flag env e hf),
    flag_le (fun hf => triggerBooksJobs_flag env hf),
    flag_le (fun hf => by rw [jsonExportTask_flag]; exact hf),
    flag_le (fun hf => by rw [startExportTask_flag]; exact hf),
    flag_le (fun hf => by rw [hs1]; exact hf),
    flag_le (fun hf => by rw [hs2]; exact hf),
    flag_le (fun hf => by rw [hs3]; exact hf),
    flag_le (fun hf => by rw [hs4]; exact hf),
    ?_, ?_⟩
  · by_cases hf : s.jsonCompleted = true
    · right
      exact (notifyCJC_flag_props env hf).1
    · have hfx : s.jsonCompleted = false := by simpa using hf
      by_cases h1 : s.status.terminal = true
      · left
        rw [notify_on_terminal env h1]
      · have h1x : s.status.terminal = false := by simpa using h1
        by_cases h2 : hasCompleted s = true
        · by_cases h4 : env.tarCreateOk = true
          · cases h7 : env.tarArchiveOk with
            | true =>
              rw [notify_fire_success env h1x h2 hfx h4 h7]
              right
              rw [writeArchive_jsonCompleted]
            | false =>
              rw [notify_fire_archive_fail env h1x h2 hfx h4 h7]
              right
              rfl
          · have h4x : env.tarCreateOk = false := by simpa using h4
            rw [notify_create_fail env h1x h2 hfx h4x]
            right
            rfl
        · have h2x : hasCompleted s = false := by simpa using h2
          left
          rw [notify_waiting env h1x h2x]
  · by_cases hf : s.jsonCompleted = true
    · right
      exact ⟨(notifyCJC_flag_props env hf).2.1, (notifyCJC_flag_props env hf).2.2⟩
    · left
      simpa using hf

theorem images_ne_tmp (n tid : String) : ¬("images/" ++ n = tmpJsonKey tid) := by
  intro heq
  have hd := congrArg String.data heq
  rw [tmpJsonKey] at hd
  rw [String.data_append, String.data_append, String.data_append] at hd
  have h1 : ("images/" : String).data = ['i', 'm', 'a', 'g', 'e', 's', '/'] := rfl
  have h2 : ("exports/" : String).data = ['e', 'x', 'p', 'o', 'r', 't', 's', '/'] := rfl
  rw [h1, h2] at hd
  simp only [List.cons_append, List.cons.injEq] at hd
  exact absurd hd.1 (by decide)

theorem imageEntries_names (a : ArchiveInput) :
    ∀ x ∈ imageEntries a, ∃ n, x.name = "images/" ++ n := by
  intro x hx
  simp only [imageEntries, List.mem_append] at hx
  rcases hx with hx | hx
  · cases ha : a.avatarName with
    | none => rw [ha] at hx; simp at hx
    | some n =>
      rw [ha] at hx
      simp only [List.mem_singleton] at hx
      exact ⟨n, by rw [hx]⟩
  · rw [List.mem_filterMap] at hx
    obtain ⟨c, _, hfc⟩ := hx
    cases c with
    | none => simp at hfc
    | some n =>
      simp only [Option.map, Option.some.injEq] at hfc
      exact ⟨n, by rw [← hfc]⟩

/-- C3: given the same export document bytes and the same avatar and cover
images, the local-stream strategy and the remote-compose strategy produce
archives with identical entry lists: the same entry names (the document
under the fixed archive.json name first, then every binary attachment under
its images/ path) and byte-for-byte the same payloads, in particular the
same JSON payload, which both branches take from the single
export_json_bytes value of src lines 230-232. -/
theorem C3_strategy_archives_identical (a : ArchiveInput) : localStreamArchive a = remoteComposeArchive a := by
  unfold localStreamArchive remoteComposeArchive
  simp only [List.map_cons, List.map_map]
  rw [remoteEntryName, if_pos rfl]
  have himg : (imageEntries a).map
      ((fun kv => (⟨remoteEntryName a.taskId kv.1, kv.2⟩ : TarEntry)) ∘
        (fun e => (e.name, e.payload))) = imageEntries a := by
    rw [List.map_congr_left (g := id) ?_, List.map_id]
    intro x hx
    obtain ⟨n, hn⟩ := imageEntries_names a x hx
    simp only [Function.comp, id]
    rw [remoteEntryName, if_neg (by rw [hn]; exact images_ne_tmp n a.taskId)]
  rw [himg]
